import Mathlib

/-
Verification of the truesight measurement pipeline (src/app.py).

The computer-vision primitives (Haar cascade detectors, Hough circle
detection) are external library calls; they are modelled as oracle
functions carried by an `Env` record.  Everything downstream of those
calls — `is_face_centered`, `detect_iris_boundaries`,
`detect_pupil_center` and `process_frame` — is embedded directly from
the source.  Pixel coordinates are integers; Python float arithmetic is
modelled by exact rationals (the literals 0.2, 0.3, 0.6 as 1/5, 3/10,
3/5), `round(x, 2)` by `round2`, and Python `int(...)` truncation by
`int_of`.
-/

namespace TrueSight

/-- A detection bounding box `(x, y, w, h)`, as produced by
`detectMultiScale` (src/app.py lines 87, 100). -/
structure Box where
  x : ℤ
  y : ℤ
  w : ℤ
  h : ℤ
  deriving DecidableEq

/-- A circle `(x, y, r)` as produced by `cv2.HoughCircles` after
`np.around(...).astype(int)` (src/app.py lines 52-53, 75-76). -/
structure CircleF where
  x : ℤ
  y : ℤ
  r : ℤ
  deriving DecidableEq

/-- The measurement dictionary built at src/app.py lines 156-160. -/
structure Measurement where
  eye_width_mm : ℚ
  bridge_width_mm : ℚ
  b_size_mm : ℚ
  deriving DecidableEq

/-- The three error strings returned by `process_frame`:
`NoFaceDetected` is the string at line 90, `InsufficientEyesDetected`
the string at line 103, `NoCenteredFace` the string at line 163. -/
inductive PipelineError
  | NoFaceDetected
  | NoCenteredFace
  | InsufficientEyesDetected
  deriving DecidableEq

/-- The per-frame environment: the frame dimensions and the results of
the external detectors.  `faces` is the candidate list of
`face_cascade.detectMultiScale` (line 87); `eyes f` is the result of
`eye_cascade.detectMultiScale` on the ROI of face `f` (line 100);
`irisCircle f e` (resp. `pupilCircle f e`) is the first Hough circle
found inside eye box `e` of face `f` with the iris parameters of
line 41 (resp. the pupil parameters of line 64), or `none` when
`HoughCircles` returns `None`. -/
structure Env where
  frame_width : ℤ
  frame_height : ℤ
  faces : List Box
  eyes : Box → List Box
  irisCircle : Box → Box → Option CircleF
  pupilCircle : Box → Box → Option CircleF

/-- `KNOWN_DISTANCE_MM = 63` (src/app.py line 14). -/
def KNOWN_DISTANCE_MM : ℚ := 63

/-- Python `round(q, 2)`: round to two decimal places.  Tie-breaking is
modelled as round-half-up. -/
def round2 (q : ℚ) : ℚ := (round (q * 100) : ℤ) / 100

/-- Python `int(q)`: truncation toward zero. -/
def int_of (q : ℚ) : ℤ := if q < 0 then ⌈q⌉ else ⌊q⌋

/-- `is_face_centered` (src/app.py lines 20-32).  Python `//` is floor
division, hence `Int.fdiv`. -/
def is_face_centered (face_x face_y face_w face_h frame_width frame_height : ℤ) : Bool :=
  let center_x : ℤ := face_x + face_w.fdiv 2
  let center_y : ℤ := face_y + face_h.fdiv 2
  let tolerance_x : ℚ := (frame_width : ℚ) * (1/5)
  let tolerance_y : ℚ := (frame_height : ℚ) * (1/5)
  let min_face_height : ℚ := (frame_height : ℚ) * (3/10)
  decide (((frame_width.fdiv 2 : ℤ) : ℚ) - tolerance_x < (center_x : ℚ) ∧
    (center_x : ℚ) < ((frame_width.fdiv 2 : ℤ) : ℚ) + tolerance_x) &&
  decide (((frame_height.fdiv 2 : ℤ) : ℚ) - tolerance_y < (center_y : ℚ) ∧
    (center_y : ℚ) < ((frame_height.fdiv 2 : ℤ) : ℚ) + tolerance_y) &&
  decide (min_face_height < (face_h : ℚ))

/-- `detect_iris_boundaries` (src/app.py lines 34-55), as a function of
the first detected Hough circle: returns `(x - r, x + r)` when a circle
is found and `(None, None)` otherwise. -/
def detect_iris_boundaries (c : Option CircleF) : Option ℤ × Option ℤ :=
  match c with
  | some circ => (some (circ.x - circ.r), some (circ.x + circ.r))
  | none => (none, none)

/-- `detect_pupil_center` (src/app.py lines 57-78), as a function of the
first detected Hough circle: returns `(x, y)` when a circle is found and
`None` otherwise. -/
def detect_pupil_center (c : Option CircleF) : Option (ℤ × ℤ) :=
  match c with
  | some circ => some (circ.x, circ.y)
  | none => none

/-- The calibration block of `process_frame` (src/app.py lines 113-144):
returns `(pixel_to_mm_ratio, eye_width_mm)`.  The guard matches
line 118-119: `left_boundaries[0]`, `right_boundaries[1]`, `left_pupil`
and `right_pupil` must all be non-`None`. -/
def calibrate (env : Env) (face left_eye right_eye : Box) : ℚ × ℚ :=
  match (detect_iris_boundaries (env.irisCircle face left_eye)).1,
        (detect_iris_boundaries (env.irisCircle face right_eye)).2,
        detect_pupil_center (env.pupilCircle face left_eye),
        detect_pupil_center (env.pupilCircle face right_eye) with
  | some lb, some rb, some lp, some rp =>
    let left_iris_global : ℤ := left_eye.x + lb
    let right_iris_global : ℤ := right_eye.x + rb
    let eye_total_width_pixels : ℤ := right_iris_global - left_iris_global
    let left_pupil_global : ℤ := left_eye.x + lp.1
    let right_pupil_global : ℤ := right_eye.x + rp.1
    let interpupil_distance_pixels : ℤ := right_pupil_global - left_pupil_global
    let pixel_to_mm_ratio : ℚ :=
      if 0 < interpupil_distance_pixels then
        KNOWN_DISTANCE_MM / (interpupil_distance_pixels : ℚ)
      else 1
    ( pixel_to_mm_ratio, round2 ((eye_total_width_pixels : ℚ) * pixel_to_mm_ratio))
  | _, _, _, _ =>
    let avg_eye_width : ℚ := ((left_eye.w : ℚ) + (right_eye.w : ℚ)) / 2
    let left_center : ℚ := (left_eye.x : ℚ) + (left_eye.w : ℚ) / 2
    let right_center : ℚ := (right_eye.x : ℚ) + (right_eye.w : ℚ) / 2
    let interpupil_distance_pixels : ℚ := right_center - left_center
    let pixel_to_mm_ratio : ℚ :=
      if 0 < interpupil_distance_pixels then
        KNOWN_DISTANCE_MM / interpupil_distance_pixels
      else 1
    ( pixel_to_mm_ratio, round2 (avg_eye_width * pixel_to_mm_ratio))

/-- The measurement block of `process_frame` (src/app.py lines 113-160):
calibration followed by bridge width and b-size synthesis. -/
def synthesize (env : Env) (face left_eye right_eye : Box) : Measurement :=
  let c := calibrate env face left_eye right_eye
  let eye_width_mm : ℚ := c.2
  let bridge_distance_pixels : ℤ := right_eye.x - (left_eye.x + left_eye.w)
  let bridge_width_mm : ℚ := round2 ((bridge_distance_pixels : ℚ) * c.1)
  let left_eye_height : ℤ := min left_eye.h (int_of ((left_eye.w : ℚ) * (3/5)))
  let right_eye_height : ℤ := min right_eye.h (int_of ((right_eye.w : ℚ) * (3/5)))
  let b_size_pixels : ℤ := max left_eye_height right_eye_height
  let b_size_mm : ℚ := round2 ((b_size_pixels : ℚ) * c.1)
  { eye_width_mm := eye_width_mm, bridge_width_mm := bridge_width_mm, b_size_mm := b_size_mm }

/-- The ordering used at src/app.py line 106:
`sorted(eyes, key=lambda b: b[0])`. -/
def byX (a b : Box) : Prop := a.x ≤ b.x

instance : DecidableRel byX := fun a b => inferInstanceAs (Decidable (a.x ≤ b.x))

instance : IsTotal Box byX := ⟨fun a b => Int.le_total a.x b.x⟩

instance : IsTrans Box byX := ⟨fun _ _ _ hab hbc => le_trans hab hbc⟩

/-- The body of the per-face loop of `process_frame` for an accepted
face (src/app.py lines 97-161): eye detection, eye ordering (a stable
sort by x-coordinate, modelled by insertion sort, which is stable), and
measurement synthesis from the two leftmost eye boxes. -/
def processFace (env : Env) (face : Box) : Option Measurement × Option PipelineError :=
  if (env.eyes face).length < 2 then
    (none, some PipelineError.InsufficientEyesDetected)
  else
    match List.insertionSort byX (env.eyes face) with
    | left_eye :: right_eye :: _ => (some (synthesize env face left_eye right_eye), none)
    | _ => (none, some PipelineError.InsufficientEyesDetected)

/-- The centering predicate applied to one face candidate, as called at
src/app.py line 94. -/
def faceAccepted (env : Env) (f : Box) : Bool :=
  is_face_centered f.x f.y f.w f.h env.frame_width env.frame_height

/-- `process_frame` (src/app.py lines 80-163).  The Python loop skips
non-centered faces and returns from the body of the first centered one,
so it is the `find?` of the centering predicate. -/
def processFrame (env : Env) : Option Measurement × Option PipelineError :=
  if env.faces.length = 0 then
    (none, some PipelineError.NoFaceDetected)
  else
    match env.faces.find? (faceAccepted env) with
    | some face => processFace env face
    | none => (none, some PipelineError.NoCenteredFace)

/-- Which of the two calibration branches of src/app.py line 118 runs. -/
inductive CalibPath
  | precise
  | approx
  deriving DecidableEq

/-- The branch selected by the guard at src/app.py lines 118-119. -/
def chosenPath (env : Env) (face left_eye right_eye : Box) : CalibPath :=
  match (detect_iris_boundaries (env.irisCircle face left_eye)).1,
        (detect_iris_boundaries (env.irisCircle face right_eye)).2,
        detect_pupil_center (env.pupilCircle face left_eye),
        detect_pupil_center (env.pupilCircle face right_eye) with
  | some _, some _, some _, some _ => CalibPath.precise
  | _, _, _, _ => CalibPath.approx

/-- The inter-pupil (precise path, line 127) or inter-eye-center
(approximate path, line 139) pixel distance computed by `calibrate`. -/
def pipelineDistance (env : Env) (face left_eye right_eye : Box) : ℚ :=
  match (detect_iris_boundaries (env.irisCircle face left_eye)).1,
        (detect_iris_boundaries (env.irisCircle face right_eye)).2,
        detect_pupil_center (env.pupilCircle face left_eye),
        detect_pupil_center (env.pupilCircle face right_eye) with
  | some _, some _, some lp, some rp =>
    (((right_eye.x + rp.1) - (left_eye.x + lp.1) : ℤ) : ℚ)
  | _, _, _, _ =>
    ((right_eye.x : ℚ) + (right_eye.w : ℚ) / 2) - ((left_eye.x : ℚ) + (left_eye.w : ℚ) / 2)

/-- The raw pixel quantity that becomes `eye_width_mm`: the iris span
(line 123) on the precise path, the mean eye-box width (line 136) on the
approximate path. -/
def rawEyeWidthPixels (env : Env) (face left_eye right_eye : Box) : ℚ :=
  match (detect_iris_boundaries (env.irisCircle face left_eye)).1,
        (detect_iris_boundaries (env.irisCircle face right_eye)).2,
        detect_pupil_center (env.pupilCircle face left_eye),
        detect_pupil_center (env.pupilCircle face right_eye) with
  | some lb, some rb, some _, some _ =>
    (((right_eye.x + rb) - (left_eye.x + lb) : ℤ) : ℚ)
  | _, _, _, _ =>
    ((left_eye.w : ℚ) + (right_eye.w : ℚ)) / 2

/-- The `pixel_to_mm_ratio` value the pipeline uses (lines 129-132 and
140-143). -/
def mmPerPx (env : Env) (face left_eye right_eye : Box) : ℚ :=
  (calibrate env face left_eye right_eye).1

/-- Concrete environment builder for witnesses: one face, one fixed eye
list, detector oracles depending only on the eye box. -/
def mkEnv (fw fh : ℤ) (facesL eyesL : List Box)
    (iris pupil : Box → Option CircleF) : Env :=
  { frame_width := fw, frame_height := fh, faces := facesL,
    eyes := fun _ => eyesL, irisCircle := fun _ e => iris e,
    pupilCircle := fun _ e => pupil e }

/-- Modelled from the spec's words (§4.6, claim C8): the b-size formula
as the spec states it, with no integer truncation of 0.6 × width.  To be
compared with the `b_size_mm` field of `synthesize`. -/
def b_size_spec (left_eye right_eye : Box) (r : ℚ) : ℚ :=
  round2 (max (min (left_eye.h : ℚ) ((left_eye.w : ℚ) * (3/5)))
              (min (right_eye.h : ℚ) ((right_eye.w : ℚ) * (3/5))) * r)

/-- A frame with one centered 40×40 face and two overlapping 10×10 eye
boxes, no circular features detectable (approximate path). -/
def envApprox : Env :=
  mkEnv 100 100 [⟨30,30,40,40⟩] [⟨0,0,10,10⟩, ⟨5,0,10,10⟩] (fun _ => none) (fun _ => none)

/-- A frame with one centered face and two identical 7×5 eye boxes, no
circular features detectable: the approximate path with inter-center
distance 0. -/
def envFlat : Env :=
  mkEnv 100 100 [⟨30,30,40,40⟩] [⟨0,0,7,5⟩, ⟨0,0,7,5⟩] (fun _ => none) (fun _ => none)

/-- A frame on the precise path whose eye boxes overlap by one pixel
while the detected pupils are 12601 pixels apart, so the bridge
measurement is smaller than half of the rounding step. -/
def envBridgeZero : Env :=
  mkEnv 100 100 [⟨30,30,40,40⟩] [⟨0,0,10,10⟩, ⟨9,0,10,10⟩]
    (fun _ => some ⟨5,5,3⟩)
    (fun e => if e.x = 0 then some ⟨0,0,5⟩ else some ⟨12592,0,5⟩)

/-- A frame with one centered face and three detected eye boxes. -/
def envThree : Env :=
  mkEnv 100 100 [⟨30,30,40,40⟩] [⟨20,0,5,5⟩, ⟨0,0,5,5⟩, ⟨10,0,5,5⟩]
    (fun _ => none) (fun _ => none)

theorem fdiv_two (a : ℤ) : a.fdiv 2 = a / 2 := Int.fdiv_eq_ediv a (by norm_num)

theorem round2_eq_cast_div (q : ℚ) : round2 q = ((round (q * 100) : ℤ) : ℚ) / 100 := rfl

theorem round2_nonneg {q : ℚ} (h : 0 ≤ q) : 0 ≤ round2 q := by
  unfold round2
  have h1 : (0 : ℤ) ≤ round (q * 100) := by
    rw [round_eq]
    refine Int.floor_nonneg.mpr ?_
    have : (0 : ℚ) ≤ q * 100 := by positivity
    linarith
  have h2 : (0 : ℚ) ≤ ((round (q * 100) : ℤ) : ℚ) := by exact_mod_cast h1
  positivity

theorem round2_nonpos {q : ℚ} (h : q ≤ 0) : round2 q ≤ 0 := by
  unfold round2
  have h1 : round (q * 100) ≤ 0 := by
    rw [round_eq]
    have hlt : (q * 100 + 1 / 2 : ℚ) < 1 := by nlinarith
    have := Int.floor_lt.mpr (by exact_mod_cast hlt : (q * 100 + 1 / 2 : ℚ) < ((1 : ℤ) : ℚ))
    omega
  have h2 : ((round (q * 100) : ℤ) : ℚ) ≤ 0 := by exact_mod_cast h1
  have : (0 : ℚ) < 100 := by norm_num
  exact div_nonpos_of_nonpos_of_nonneg h2 (by norm_num)

theorem int_of_nonneg {q : ℚ} (h : 0 ≤ q) : 0 ≤ int_of q := by
  unfold int_of
  rw [if_neg (not_lt.mpr h)]
  exact Int.floor_nonneg.mpr h

/-- `calibrate` in terms of the projections `pipelineDistance` and
`rawEyeWidthPixels`: on both branches the ratio is `63 / distance` when
the distance is positive and `1` otherwise, and the eye width is
`round2` of the raw pixel quantity times that ratio. -/
theorem calibrate_eq (env : Env) (face left_eye right_eye : Box) :
    calibrate env face left_eye right_eye =
      ((if 0 < pipelineDistance env face left_eye right_eye then
          KNOWN_DISTANCE_MM / pipelineDistance env face left_eye right_eye else 1),
       round2 (rawEyeWidthPixels env face left_eye right_eye *
        (if 0 < pipelineDistance env face left_eye right_eye then
          KNOWN_DISTANCE_MM / pipelineDistance env face left_eye right_eye else 1))) := by
  unfold calibrate pipelineDistance rawEyeWidthPixels
  cases hI : env.irisCircle face left_eye <;>
    cases hJ : env.irisCircle face right_eye <;>
    cases hP : env.pupilCircle face left_eye <;>
    cases hQ : env.pupilCircle face right_eye <;>
    simp only [detect_iris_boundaries, detect_pupil_center]
  all_goals norm_cast

theorem mmPerPx_pos (env : Env) (face left_eye right_eye : Box) :
    0 < mmPerPx env face left_eye right_eye := by
  unfold mmPerPx
  rw [calibrate_eq]
  dsimp only
  split
  · exact div_pos (by norm_num [KNOWN_DISTANCE_MM]) (by assumption)
  · norm_num

/-- All three fields of `synthesize`, spelled out. -/
theorem synthesize_fields (env : Env) (face left_eye right_eye : Box) :
    synthesize env face left_eye right_eye =
      { eye_width_mm := (calibrate env face left_eye right_eye).2,
        bridge_width_mm :=
          round2 (((right_eye.x - (left_eye.x + left_eye.w) : ℤ) : ℚ) *
            (calibrate env face left_eye right_eye).1),
        b_size_mm :=
          round2 (((max (min left_eye.h (int_of ((left_eye.w : ℚ) * (3/5))))
                        (min right_eye.h (int_of ((right_eye.w : ℚ) * (3/5)))) : ℤ) : ℚ) *
            (calibrate env face left_eye right_eye).1) } := rfl

theorem sorted_two (l : List Box) (h : 2 ≤ l.length) :
    ∃ a b t, List.insertionSort byX l = a :: b :: t := by
  have hl : (List.insertionSort byX l).length = l.length := List.length_insertionSort byX l
  cases hs : List.insertionSort byX l with
  | nil => rw [hs] at hl; simp at hl; omega
  | cons a t1 =>
    cases t1 with
    | nil => rw [hs] at hl; simp at hl; omega
    | cons b t => exact ⟨a, b, t, rfl⟩

theorem processFace_two (env : Env) (f e1 e2 : Box)
    (heyes : env.eyes f = [e1, e2]) (hx : e1.x ≤ e2.x) :
    processFace env f = (some (synthesize env f e1 e2), none) := by
  have hsort : List.insertionSort byX (env.eyes f) = [e1, e2] := by
    rw [heyes]
    simp [List.insertionSort, List.orderedInsert, byX, hx]
  have hlen : ¬ (env.eyes f).length < 2 := by rw [heyes]; norm_num
  unfold processFace
  rw [if_neg hlen, hsort]

theorem processFrame_first (env : Env) (f : Box)
    (hfaces : env.faces = [f]) (hacc : faceAccepted env f = true) :
    processFrame env = processFace env f := by
  have hfind : env.faces.find? (faceAccepted env) = some f := by
    rw [hfaces]
    simp [List.find?, hacc]
  unfold processFrame
  rw [if_neg (show ¬ env.faces.length = 0 by rw [hfaces]; norm_num), hfind]

theorem processFrame_run (env : Env) (f e1 e2 : Box)
    (hfaces : env.faces = [f]) (hacc : faceAccepted env f = true)
    (heyes : env.eyes f = [e1, e2]) (hx : e1.x ≤ e2.x) :
    processFrame env = (some (synthesize env f e1 e2), none) :=
  (processFrame_first env f hfaces hacc).trans (processFace_two env f e1 e2 heyes hx)

/-- C1: For every input Frame, one invocation of the pipeline
(`process_frame`) produces exactly one of a Measurement or a
PipelineError: it never returns both a Measurement and an error, and
never returns neither. -/
theorem C1_exactly_one (env : Env) :
    ((processFrame env).1.isSome ∧ (processFrame env).2 = none) ∨
    ((processFrame env).1 = none ∧ (processFrame env).2.isSome) := by
  unfold processFrame processFace
  split
  · exact Or.inr ⟨rfl, rfl⟩
  · split
    · split
      · exact Or.inr ⟨rfl, rfl⟩
      · split
        · exact Or.inl ⟨rfl, rfl⟩
        · exact Or.inr ⟨rfl, rfl⟩
    · exact Or.inr ⟨rfl, rfl⟩

/-- C2: For every invocation that reaches the Calibrator, the precise
calibration path is taken if and only if the iris boundaries and the
pupil centers are present for both eyes; if any of the four sub-features
is absent the approximate path is taken; exactly one of the two paths
executes per request. -/
theorem C2_path_selection (env : Env) (face left_eye right_eye : Box) :
    (chosenPath env face left_eye right_eye = CalibPath.precise ↔
      ((detect_iris_boundaries (env.irisCircle face left_eye)).1.isSome ∧
       (detect_iris_boundaries (env.irisCircle face left_eye)).2.isSome ∧
       (detect_iris_boundaries (env.irisCircle face right_eye)).1.isSome ∧
       (detect_iris_boundaries (env.irisCircle face right_eye)).2.isSome ∧
       (detect_pupil_center (env.pupilCircle face left_eye)).isSome ∧
       (detect_pupil_center (env.pupilCircle face right_eye)).isSome)) ∧
    (chosenPath env face left_eye right_eye = CalibPath.approx ↔
      ¬ ((detect_iris_boundaries (env.irisCircle face left_eye)).1.isSome ∧
       (detect_iris_boundaries (env.irisCircle face left_eye)).2.isSome ∧
       (detect_iris_boundaries (env.irisCircle face right_eye)).1.isSome ∧
       (detect_iris_boundaries (env.irisCircle face right_eye)).2.isSome ∧
       (detect_pupil_center (env.pupilCircle face left_eye)).isSome ∧
       (detect_pupil_center (env.pupilCircle face right_eye)).isSome)) := by
  cases hI : env.irisCircle face left_eye <;>
    cases hJ : env.irisCircle face right_eye <;>
    cases hP : env.pupilCircle face left_eye <;>
    cases hQ : env.pupilCircle face right_eye <;>
    simp [chosenPath, detect_iris_boundaries, detect_pupil_center, hI, hJ, hP, hQ]

/-- C5: The Centering Validator accepts a face BoundingBox iff its
center lies strictly within ±20% of the frame width of the (integer)
horizontal frame midpoint and strictly within ±20% of the frame height
of the vertical frame midpoint, and its height strictly exceeds 30% of
the frame height; a center lying exactly on a tolerance boundary is
rejected. -/
theorem C5_centering_rule (face_x face_y face_w face_h frame_width frame_height : ℤ) :
    (is_face_centered face_x face_y face_w face_h frame_width frame_height = true ↔
      (((frame_width.fdiv 2 : ℤ) : ℚ) - (frame_width : ℚ) * (1/5) < ((face_x + face_w.fdiv 2 : ℤ) : ℚ) ∧
       ((face_x + face_w.fdiv 2 : ℤ) : ℚ) < ((frame_width.fdiv 2 : ℤ) : ℚ) + (frame_width : ℚ) * (1/5) ∧
       ((frame_height.fdiv 2 : ℤ) : ℚ) - (frame_height : ℚ) * (1/5) < ((face_y + face_h.fdiv 2 : ℤ) : ℚ) ∧
       ((face_y + face_h.fdiv 2 : ℤ) : ℚ) < ((frame_height.fdiv 2 : ℤ) : ℚ) + (frame_height : ℚ) * (1/5) ∧
       (frame_height : ℚ) * (3/10) < (face_h : ℚ))) ∧
    (((face_x + face_w.fdiv 2 : ℤ) : ℚ) = ((frame_width.fdiv 2 : ℤ) : ℚ) + (frame_width : ℚ) * (1/5) →
      is_face_centered face_x face_y face_w face_h frame_width frame_height = false) ∧
    (((face_x + face_w.fdiv 2 : ℤ) : ℚ) = ((frame_width.fdiv 2 : ℤ) : ℚ) - (frame_width : ℚ) * (1/5) →
      is_face_centered face_x face_y face_w face_h frame_width frame_height = false) ∧
    (((face_y + face_h.fdiv 2 : ℤ) : ℚ) = ((frame_height.fdiv 2 : ℤ) : ℚ) + (frame_height : ℚ) * (1/5) →
      is_face_centered face_x face_y face_w face_h frame_width frame_height = false) ∧
    (((face_y + face_h.fdiv 2 : ℤ) : ℚ) = ((frame_height.fdiv 2 : ℤ) : ℚ) - (frame_height : ℚ) * (1/5) →
      is_face_centered face_x face_y face_w face_h frame_width frame_height = false) := by
  have hiff : is_face_centered face_x face_y face_w face_h frame_width frame_height = true ↔
      (((frame_width.fdiv 2 : ℤ) : ℚ) - (frame_width : ℚ) * (1/5) < ((face_x + face_w.fdiv 2 : ℤ) : ℚ) ∧
       ((face_x + face_w.fdiv 2 : ℤ) : ℚ) < ((frame_width.fdiv 2 : ℤ) : ℚ) + (frame_width : ℚ) * (1/5) ∧
       ((frame_height.fdiv 2 : ℤ) : ℚ) - (frame_height : ℚ) * (1/5) < ((face_y + face_h.fdiv 2 : ℤ) : ℚ) ∧
       ((face_y + face_h.fdiv 2 : ℤ) : ℚ) < ((frame_height.fdiv 2 : ℤ) : ℚ) + (frame_height : ℚ) * (1/5) ∧
       (frame_height : ℚ) * (3/10) < (face_h : ℚ)) := by
    simp only [is_face_centered, Bool.and_eq_true, decide_eq_true_eq]
    push_cast
    constructor
    · rintro ⟨⟨⟨h1, h2⟩, h3, h4⟩, h5⟩
      exact ⟨h1, h2, h3, h4, h5⟩
    · rintro ⟨h1, h2, h3, h4, h5⟩
      exact ⟨⟨⟨h1, h2⟩, h3, h4⟩, h5⟩
  refine ⟨hiff, ?_, ?_, ?_, ?_⟩ <;> intro heq <;>
    cases hbc : is_face_centered face_x face_y face_w face_h frame_width frame_height <;>
    try rfl
  all_goals
    exfalso
    rcases hiff.mp hbc with ⟨h1, h2, h3, h4, h5⟩
    rw [heq] at *
    linarith

/-- C10: The iris boundary detector returns either both boundaries
absent or both present (with left boundary = center − radius and right
boundary = center + radius), so the precise-path guard that inspects
only the left eye's left boundary and the right eye's right boundary is
equivalent to requiring both iris boundaries of both eyes to be
present. -/
theorem C10_iris_pairing (c cl cr : Option CircleF) :
    ((detect_iris_boundaries c).1.isSome ↔ (detect_iris_boundaries c).2.isSome) ∧
    (∀ circ : CircleF, c = some circ →
      detect_iris_boundaries c = (some (circ.x - circ.r), some (circ.x + circ.r))) ∧
    (((detect_iris_boundaries cl).1.isSome ∧ (detect_iris_boundaries cr).2.isSome) ↔
      ((detect_iris_boundaries cl).1.isSome ∧ (detect_iris_boundaries cl).2.isSome ∧
       (detect_iris_boundaries cr).1.isSome ∧ (detect_iris_boundaries cr).2.isSome)) := by
  cases c <;> cases cl <;> cases cr <;>
    simp [detect_iris_boundaries]

/-- Witness for C5: with a 100×100 frame, a face box whose center x is
exactly 70 = 50 + 20 sits on the +20%-width tolerance boundary and is
rejected. -/
theorem C5_centering_rule_witness :
    is_face_centered 70 0 0 0 100 100 = false :=
  (C5_centering_rule 70 0 0 0 100 100).2.1 (by norm_num [fdiv_two])

/-- Witness for C10: a concrete circle yields both boundaries. -/
theorem C10_iris_pairing_witness :
    detect_iris_boundaries (some ⟨5, 5, 3⟩) = (some 2, some 8) :=
  (C10_iris_pairing (some ⟨5, 5, 3⟩) none none).2.1 ⟨5, 5, 3⟩ rfl

/-- C3: On either calibration path, whenever the computed inter-pupil
(or inter-eye-center) pixel distance is zero or negative, no error is
raised: the calibration ratio is exactly 1 and every output measurement
equals its raw pixel quantity (rounded to 2 decimals) unconverted;
whenever the distance is positive, the ratio is 63 divided by that
distance. -/
theorem C3_degenerate_fallback (env : Env) (face left_eye right_eye : Box) (rest : List Box)
    (hsort : List.insertionSort byX (env.eyes face) = left_eye :: right_eye :: rest) :
    processFace env face = (some (synthesize env face left_eye right_eye), none) ∧
    (pipelineDistance env face left_eye right_eye ≤ 0 →
      mmPerPx env face left_eye right_eye = 1 ∧
      synthesize env face left_eye right_eye =
        { eye_width_mm := round2 (rawEyeWidthPixels env face left_eye right_eye),
          bridge_width_mm := round2 (((right_eye.x - (left_eye.x + left_eye.w) : ℤ) : ℚ)),
          b_size_mm := round2 (((max (min left_eye.h (int_of ((left_eye.w : ℚ) * (3/5))))
            (min right_eye.h (int_of ((right_eye.w : ℚ) * (3/5)))) : ℤ) : ℚ)) }) ∧
    (0 < pipelineDistance env face left_eye right_eye →
      mmPerPx env face left_eye right_eye = 63 / pipelineDistance env face left_eye right_eye) := by
  have hcal := calibrate_eq env face left_eye right_eye
  refine ⟨?_, fun hd => ?_, fun hd => ?_⟩
  · have hlenge : (env.eyes face).length = rest.length + 2 := by
      have hl := List.length_insertionSort byX (env.eyes face)
      rw [hsort] at hl
      simp at hl
      omega
    unfold processFace
    rw [if_neg (by omega), hsort]
  · have hratio : mmPerPx env face left_eye right_eye = 1 := by
      unfold mmPerPx
      rw [hcal]
      simp [not_lt.mpr hd]
    constructor
    · exact hratio
    · rw [synthesize_fields, hcal]
      simp [not_lt.mpr hd]
  · unfold mmPerPx
    rw [hcal]
    simp [KNOWN_DISTANCE_MM, hd]

/-- Witness for C3: on `envFlat` the two identical eye boxes give an
inter-center pixel distance of 0, and the ratio is exactly 1. -/
theorem C3_degenerate_fallback_witness :
    pipelineDistance envFlat ⟨30,30,40,40⟩ ⟨0,0,7,5⟩ ⟨0,0,7,5⟩ ≤ 0 ∧
    mmPerPx envFlat ⟨30,30,40,40⟩ ⟨0,0,7,5⟩ ⟨0,0,7,5⟩ = 1 := by
  have hd : pipelineDistance envFlat ⟨30,30,40,40⟩ ⟨0,0,7,5⟩ ⟨0,0,7,5⟩ ≤ 0 := by
    norm_num [pipelineDistance, envFlat, mkEnv, detect_iris_boundaries, detect_pupil_center]
  have hsort : List.insertionSort byX (envFlat.eyes ⟨30,30,40,40⟩) = [⟨0,0,7,5⟩, ⟨0,0,7,5⟩] := by
    norm_num [envFlat, mkEnv, List.insertionSort, List.orderedInsert, byX]
  exact ⟨hd, ((C3_degenerate_fallback envFlat ⟨30,30,40,40⟩ ⟨0,0,7,5⟩ ⟨0,0,7,5⟩ [] hsort).2.1 hd).1⟩

/-- C4: The pipeline fails with `NoFaceDetected` iff the face candidate
sequence is empty; with `NoCenteredFace` iff at least one face is
detected but none satisfies the Centering Validator; and with
`InsufficientEyesDetected` iff the first accepted (centered) face's ROI
contains fewer than two detected eye regions. -/
theorem C4_error_conditions (env : Env) :
    ((processFrame env).2 = some PipelineError.NoFaceDetected ↔ env.faces = []) ∧
    ((processFrame env).2 = some PipelineError.NoCenteredFace ↔
      env.faces ≠ [] ∧ ∀ f ∈ env.faces, faceAccepted env f = false) ∧
    ((processFrame env).2 = some PipelineError.InsufficientEyesDetected ↔
      ∃ face, env.faces.find? (faceAccepted env) = some face ∧
        (env.eyes face).length < 2) := by
  by_cases h0 : env.faces.length = 0
  · have hnil : env.faces = [] := List.length_eq_zero.mp h0
    have heq : processFrame env = (none, some PipelineError.NoFaceDetected) := by
      unfold processFrame
      rw [if_pos h0]
    rw [heq]
    refine ⟨iff_of_true rfl hnil, iff_of_false (by simp) (fun h => h.1 hnil), ?_⟩
    refine iff_of_false (by simp) ?_
    rintro ⟨face, hface, -⟩
    rw [hnil] at hface
    simp at hface
  · have hne : env.faces ≠ [] := fun hnil => h0 (by rw [hnil]; rfl)
    cases hf : env.faces.find? (faceAccepted env) with
    | none =>
      have hall : ∀ f ∈ env.faces, faceAccepted env f = false := by
        intro f hfmem
        simpa using List.find?_eq_none.mp hf f hfmem
      have heq : processFrame env = (none, some PipelineError.NoCenteredFace) := by
        unfold processFrame
        rw [if_neg h0, hf]
      rw [heq]
      refine ⟨iff_of_false (by simp) (fun hnil => hne hnil),
        iff_of_true rfl ⟨hne, hall⟩, iff_of_false (by simp) ?_⟩
      rintro ⟨face, hface, -⟩
      cases hface
    | some face =>
      have hacc : faceAccepted env face = true := List.find?_some hf
      have hmem : face ∈ env.faces := List.mem_of_find?_eq_some hf
      have heq : processFrame env = processFace env face := by
        unfold processFrame
        rw [if_neg h0, hf]
      rw [heq]
      by_cases hlen : (env.eyes face).length < 2
      · have heq2 : processFace env face = (none, some PipelineError.InsufficientEyesDetected) := by
          unfold processFace
          rw [if_pos hlen]
        rw [heq2]
        refine ⟨iff_of_false (by simp) (fun hnil => hne hnil), ?_, ?_⟩
        · refine iff_of_false (by simp) ?_
          rintro ⟨-, hall⟩
          rw [hall face hmem] at hacc
          cases hacc
        · exact iff_of_true rfl ⟨face, rfl, hlen⟩
      · obtain ⟨a, b, t, hs⟩ := sorted_two (env.eyes face) (by omega)
        have heq2 : processFace env face = (some (synthesize env face a b), none) := by
          unfold processFace
          rw [if_neg hlen, hs]
        rw [heq2]
        refine ⟨iff_of_false (by simp) (fun hnil => hne hnil), ?_, ?_⟩
        · refine iff_of_false (by simp) ?_
          rintro ⟨-, hall⟩
          rw [hall face hmem] at hacc
          cases hacc
        · refine iff_of_false (by simp) ?_
          rintro ⟨face2, hface2, hlen2⟩
          cases hface2
          exact hlen hlen2

/-- C6 (amended): bridge_width_mm equals (right eye box's left edge
minus left eye box's right edge) times the calibration ratio, rounded to
2 decimals, with no clamping; when the two eye boxes overlap
horizontally the pre-rounding product is strictly negative and the
returned bridge_width_mm is at most 0 (rounding can carry a magnitude
below 0.005 up to 0). -/
theorem C6_bridge_formula (env : Env) (face left_eye right_eye : Box) :
    (synthesize env face left_eye right_eye).bridge_width_mm =
      round2 (((right_eye.x - (left_eye.x + left_eye.w) : ℤ) : ℚ) *
        mmPerPx env face left_eye right_eye) ∧
    (right_eye.x < left_eye.x + left_eye.w →
      ((right_eye.x - (left_eye.x + left_eye.w) : ℤ) : ℚ) *
        mmPerPx env face left_eye right_eye < 0 ∧
      (synthesize env face left_eye right_eye).bridge_width_mm ≤ 0) := by
  have hform : (synthesize env face left_eye right_eye).bridge_width_mm =
      round2 (((right_eye.x - (left_eye.x + left_eye.w) : ℤ) : ℚ) *
        mmPerPx env face left_eye right_eye) := rfl
  refine ⟨hform, fun hover => ?_⟩
  have hneg : ((right_eye.x - (left_eye.x + left_eye.w) : ℤ) : ℚ) < 0 := by
    exact_mod_cast (show right_eye.x - (left_eye.x + left_eye.w) < 0 by omega)
  have hmul : ((right_eye.x - (left_eye.x + left_eye.w) : ℤ) : ℚ) *
      mmPerPx env face left_eye right_eye < 0 :=
    mul_neg_of_neg_of_pos hneg (mmPerPx_pos env face left_eye right_eye)
  exact ⟨hmul, hform ▸ round2_nonpos (le_of_lt hmul)⟩

/-- Witness for C6: on `envApprox` the eye boxes overlap and the
returned bridge width is at most 0. -/
theorem C6_bridge_formula_witness :
    (synthesize envApprox ⟨30,30,40,40⟩ ⟨0,0,10,10⟩ ⟨5,0,10,10⟩).bridge_width_mm ≤ 0 :=
  ((C6_bridge_formula envApprox ⟨30,30,40,40⟩ ⟨0,0,10,10⟩ ⟨5,0,10,10⟩).2 (by norm_num)).2

/-- Counterexample for C6 as stated: on `envBridgeZero` the eye boxes
overlap horizontally (9 < 0 + 10) yet the produced bridge_width_mm is 0,
not negative: the raw product -63/12601 rounds to 0.00. -/
theorem C6_counterexample :
    ((9 : ℤ) < 0 + 10) ∧
    processFrame envBridgeZero =
      (some (synthesize envBridgeZero ⟨30,30,40,40⟩ ⟨0,0,10,10⟩ ⟨9,0,10,10⟩), none) ∧
    (synthesize envBridgeZero ⟨30,30,40,40⟩ ⟨0,0,10,10⟩ ⟨9,0,10,10⟩).bridge_width_mm = 0 := by
  refine ⟨by norm_num, ?_, ?_⟩
  · exact processFrame_run envBridgeZero ⟨30,30,40,40⟩ ⟨0,0,10,10⟩ ⟨9,0,10,10⟩ rfl
      (by simp only [faceAccepted, is_face_centered, envBridgeZero, mkEnv,
            Bool.and_eq_true, decide_eq_true_eq]
          norm_num [fdiv_two])
      rfl (by norm_num)
  · simp only [synthesize, calibrate, envBridgeZero, mkEnv,
      detect_iris_boundaries, detect_pupil_center]
    norm_num [round2, round_eq, int_of, KNOWN_DISTANCE_MM]

/-- Inversion: a successful run goes through the first accepted face and
the two leftmost sorted eye boxes. -/
theorem processFrame_some_inv (env : Env) (m : Measurement) (e : Option PipelineError)
    (h : processFrame env = (some m, e)) :
    ∃ f a b t, env.faces.find? (faceAccepted env) = some f ∧
      List.insertionSort byX (env.eyes f) = a :: b :: t ∧
      a ∈ env.eyes f ∧ b ∈ env.eyes f ∧
      m = synthesize env f a b := by
  by_cases h0 : env.faces.length = 0
  · have heq : processFrame env = (none, some PipelineError.NoFaceDetected) := by
      unfold processFrame
      rw [if_pos h0]
    rw [heq] at h
    simp at h
  · cases hf : env.faces.find? (faceAccepted env) with
    | none =>
      have heq : processFrame env = (none, some PipelineError.NoCenteredFace) := by
        unfold processFrame
        rw [if_neg h0, hf]
      rw [heq] at h
      simp at h
    | some f =>
      have heq : processFrame env = processFace env f := by
        unfold processFrame
        rw [if_neg h0, hf]
      rw [heq] at h
      by_cases hlen : (env.eyes f).length < 2
      · have heq2 : processFace env f = (none, some PipelineError.InsufficientEyesDetected) := by
          unfold processFace
          rw [if_pos hlen]
        rw [heq2] at h
        simp at h
      · obtain ⟨a, b, t, hs⟩ := sorted_two (env.eyes f) (by omega)
        have heq2 : processFace env f = (some (synthesize env f a b), none) := by
          unfold processFace
          rw [if_neg hlen, hs]
        rw [heq2] at h
        have hm : m = synthesize env f a b := by
          have h1 := congrArg Prod.fst h
          simp at h1
          exact h1.symm
        have hamem : a ∈ env.eyes f := by
          have ha : a ∈ List.insertionSort byX (env.eyes f) := by
            rw [hs]
            exact List.mem_cons_self a (b :: t)
          exact (List.mem_insertionSort byX).mp ha
        have hbmem : b ∈ env.eyes f := by
          have hb : b ∈ List.insertionSort byX (env.eyes f) := by
            rw [hs]
            exact List.mem_cons_of_mem a (List.mem_cons_self b t)
          exact (List.mem_insertionSort byX).mp hb
        exact ⟨f, a, b, t, rfl, hs, hamem, hbmem, hm⟩

/-- C7 (amended): every produced Measurement has all three fields equal
to an integer number of hundredths (rounded to 2 decimal places), and
b_size_mm is non-negative whenever the detected eye boxes have
non-negative width and height; eye_width_mm and bridge_width_mm are not
guaranteed non-negative. -/
theorem C7_measurement_fields (env : Env) (m : Measurement) (e : Option PipelineError)
    (h : processFrame env = (some m, e))
    (hboxes : ∀ g ∈ env.faces, ∀ b ∈ env.eyes g, 0 ≤ b.w ∧ 0 ≤ b.h) :
    (∃ n : ℤ, m.eye_width_mm = (n : ℚ) / 100) ∧
    (∃ n : ℤ, m.bridge_width_mm = (n : ℚ) / 100) ∧
    (∃ n : ℤ, m.b_size_mm = (n : ℚ) / 100) ∧
    0 ≤ m.b_size_mm := by
  obtain ⟨f, a, b, t, hf, hs, hamem, hbmem, hm⟩ := processFrame_some_inv env m e h
  have hfmem : f ∈ env.faces := List.mem_of_find?_eq_some hf
  obtain ⟨haw, hah⟩ := hboxes f hfmem a hamem
  obtain ⟨hbw, hbh⟩ := hboxes f hfmem b hbmem
  subst hm
  rw [synthesize_fields]
  refine ⟨?_, ⟨_, rfl⟩, ⟨_, rfl⟩, ?_⟩
  · rw [calibrate_eq]
    exact ⟨_, rfl⟩
  · apply round2_nonneg
    apply mul_nonneg
    · have h1 : 0 ≤ min a.h (int_of ((a.w : ℚ) * (3/5))) :=
        le_min hah (int_of_nonneg (mul_nonneg (by exact_mod_cast haw) (by norm_num)))
      have h2 : (0 : ℤ) ≤ max (min a.h (int_of ((a.w : ℚ) * (3/5))))
          (min b.h (int_of ((b.w : ℚ) * (3/5)))) := le_max_of_le_left h1
      exact_mod_cast h2
    · exact le_of_lt (mmPerPx_pos env f a b)

/-- Witness for C7: a successful run on `envApprox` has non-negative
b_size_mm. -/
theorem C7_measurement_fields_witness :
    0 ≤ (synthesize envApprox ⟨30,30,40,40⟩ ⟨0,0,10,10⟩ ⟨5,0,10,10⟩).b_size_mm :=
  (C7_measurement_fields envApprox
    (synthesize envApprox ⟨30,30,40,40⟩ ⟨0,0,10,10⟩ ⟨5,0,10,10⟩) none
    (processFrame_run envApprox ⟨30,30,40,40⟩ ⟨0,0,10,10⟩ ⟨5,0,10,10⟩ rfl
      (by simp only [faceAccepted, is_face_centered, envApprox, mkEnv,
            Bool.and_eq_true, decide_eq_true_eq]
          norm_num [fdiv_two])
      rfl (by norm_num))
    (by intro g hg c hc
        simp [envApprox, mkEnv] at hc
        rcases hc with hc | hc <;> subst hc <;> norm_num)).2.2.2

/-- Counterexample for C7 as stated: on `envApprox` the pipeline
succeeds with bridge_width_mm = −63 < 0, so not every field of a
produced Measurement is non-negative. -/
theorem C7_counterexample :
    processFrame envApprox =
      (some { eye_width_mm := 126, bridge_width_mm := -63, b_size_mm := 378/5 }, none) ∧
    ({ eye_width_mm := 126, bridge_width_mm := -63, b_size_mm := (378/5 : ℚ) } :
      Measurement).bridge_width_mm < 0 := by
  constructor
  · rw [processFrame_run envApprox ⟨30,30,40,40⟩ ⟨0,0,10,10⟩ ⟨5,0,10,10⟩ rfl
      (by simp only [faceAccepted, is_face_centered, envApprox, mkEnv,
            Bool.and_eq_true, decide_eq_true_eq]
          norm_num [fdiv_two])
      rfl (by norm_num)]
    simp only [synthesize, calibrate, envApprox, mkEnv,
      detect_iris_boundaries, detect_pupil_center]
    norm_num [round2, round_eq, int_of, KNOWN_DISTANCE_MM]
  · norm_num

/-- C8 (amended): b_size_mm equals max(min(left eye box height,
int(0.6 × left eye box width)), min(right eye box height, int(0.6 ×
right eye box width))) times the calibration ratio, rounded to 2
decimals, where int(·) truncates to an integer before the min is
taken. -/
theorem C8_b_size_formula (env : Env) (face left_eye right_eye : Box) :
    (synthesize env face left_eye right_eye).b_size_mm =
      round2 (((max (min left_eye.h (int_of ((left_eye.w : ℚ) * (3/5))))
                    (min right_eye.h (int_of ((right_eye.w : ℚ) * (3/5)))) : ℤ) : ℚ) *
        mmPerPx env face left_eye right_eye) := rfl

/-- Counterexample for C8 as stated: on `envFlat` (7×5 eye boxes, ratio
exactly 1) the code computes b_size_mm = min(5, int(4.2)) = 4, while the
claim's formula min(5, 0.6·7) = 4.2 rounds to 4.2: the untruncated
formula of the claim disagrees with the code. -/
theorem C8_counterexample :
    processFrame envFlat =
      (some (synthesize envFlat ⟨30,30,40,40⟩ ⟨0,0,7,5⟩ ⟨0,0,7,5⟩), none) ∧
    (synthesize envFlat ⟨30,30,40,40⟩ ⟨0,0,7,5⟩ ⟨0,0,7,5⟩).b_size_mm = 4 ∧
    b_size_spec ⟨0,0,7,5⟩ ⟨0,0,7,5⟩ (mmPerPx envFlat ⟨30,30,40,40⟩ ⟨0,0,7,5⟩ ⟨0,0,7,5⟩) = 21/5 := by
  have hratio : mmPerPx envFlat ⟨30,30,40,40⟩ ⟨0,0,7,5⟩ ⟨0,0,7,5⟩ = 1 := by
    simp only [mmPerPx, calibrate, envFlat, mkEnv,
      detect_iris_boundaries, detect_pupil_center]
    norm_num
  refine ⟨?_, ?_, ?_⟩
  · exact processFrame_run envFlat ⟨30,30,40,40⟩ ⟨0,0,7,5⟩ ⟨0,0,7,5⟩ rfl
      (by simp only [faceAccepted, is_face_centered, envFlat, mkEnv,
            Bool.and_eq_true, decide_eq_true_eq]
          norm_num [fdiv_two])
      rfl (by norm_num)
  · simp only [synthesize, calibrate, envFlat, mkEnv,
      detect_iris_boundaries, detect_pupil_center]
    norm_num [round2, round_eq, int_of, KNOWN_DISTANCE_MM]
  · rw [hratio]
    norm_num [b_size_spec, round2, round_eq]

/-- C9: Whenever two or more eye boxes are detected in the accepted face
ROI, the pipeline selects as left_eye and right_eye the two boxes with
the smallest x-coordinates (sorted ascending by x, so left_eye's x ≤
right_eye's x, and every remaining box has an x at least both) and
silently discards every other detected eye box. -/
theorem C9_eye_selection (env : Env) (face : Box) (h2 : 2 ≤ (env.eyes face).length) :
    ∃ left_eye right_eye rest,
      List.insertionSort byX (env.eyes face) = left_eye :: right_eye :: rest ∧
      left_eye.x ≤ right_eye.x ∧
      (∀ b ∈ rest, left_eye.x ≤ b.x ∧ right_eye.x ≤ b.x) ∧
      (left_eye :: right_eye :: rest).Perm (env.eyes face) ∧
      processFace env face = (some (synthesize env face left_eye right_eye), none) := by
  obtain ⟨a, b, t, hs⟩ := sorted_two (env.eyes face) h2
  have hsorted : List.Sorted byX (a :: b :: t) := by
    rw [← hs]
    exact List.sorted_insertionSort byX (env.eyes face)
  have hab : a.x ≤ b.x := (List.sorted_cons.mp hsorted).1 b (List.mem_cons_self b t)
  have hrest : ∀ c ∈ t, a.x ≤ c.x ∧ b.x ≤ c.x := by
    intro c hc
    exact ⟨(List.sorted_cons.mp hsorted).1 c (List.mem_cons_of_mem b hc),
      (List.sorted_cons.mp (List.sorted_cons.mp hsorted).2).1 c hc⟩
  have hperm : (a :: b :: t).Perm (env.eyes face) := by
    rw [← hs]
    exact List.perm_insertionSort byX (env.eyes face)
  have hproc : processFace env face = (some (synthesize env face a b), none) := by
    unfold processFace
    rw [if_neg (by omega), hs]
  exact ⟨a, b, t, hs, hab, hrest, hperm, hproc⟩

/-- Witness for C9: on `envThree` (three detected eye boxes at x = 20,
0, 10) the two leftmost are selected and the third is discarded. -/
theorem C9_eye_selection_witness :
    ∃ left_eye right_eye rest,
      List.insertionSort byX (envThree.eyes ⟨30,30,40,40⟩) = left_eye :: right_eye :: rest ∧
      left_eye.x ≤ right_eye.x ∧
      (∀ b ∈ rest, left_eye.x ≤ b.x ∧ right_eye.x ≤ b.x) ∧
      (left_eye :: right_eye :: rest).Perm (envThree.eyes ⟨30,30,40,40⟩) ∧
      processFace envThree ⟨30,30,40,40⟩ =
        (some (synthesize envThree ⟨30,30,40,40⟩ left_eye right_eye), none) :=
  C9_eye_selection envThree ⟨30,30,40,40⟩ (by norm_num [envThree, mkEnv])

end TrueSight
